import Mathlib

/-
Shallow embedding of the sync_you Flask backend (src/app.py).

The backend is a thin HTTP layer over two external collaborators: a
Firestore-style document database and a text-generation API.  Handlers are
modelled as pure Lean functions over an explicit store state; each network
round-trip to a collaborator carries an `Option String` failure injection
(`none` = the call succeeds, `some e` = the call raises an exception whose
Python `str(e)` is `e`, which the handler's `except` clause converts into an
HTTP 500 response with body `{"error": e}`).  An exception raised outside a
handler's try/except block (e.g. `None.get(...)`) escapes to the framework
and is modelled as `HandlerOutcome.uncaught`.
-/

/-- JSON-like values appearing in the request and response bodies that the
handlers manipulate: booleans, strings, integers, lists of strings (the
`wellWishers` field), and null. -/
inductive JVal where
  | jbool : Bool → JVal
  | jstr : String → JVal
  | jnum : Int → JVal
  | jstrList : List String → JVal
  | jnull : JVal
  deriving DecidableEq, Repr

/-- A decoded JSON object: an association list of field names to values. -/
abbrev JDoc := List (String × JVal)

/-- Python truthiness of a JSON value, as used by the handlers' `if not x`
checks: empty string, zero, empty list, null and False are falsy. -/
def pyTruthy : JVal → Bool
  | .jbool b => b
  | .jstr s => !(s == "")
  | .jnum n => !(n == 0)
  | .jstrList l => !l.isEmpty
  | .jnull => false

/-- Python `str()` of a JSON value, used when a value is interpolated into
an f-string prompt template. -/
def pyStr : JVal → String
  | .jstr s => s
  | .jbool true => "True"
  | .jbool false => "False"
  | .jnum n => toString n
  | .jstrList l => "[" ++ String.intercalate ", " (l.map (fun s => "\x27" ++ s ++ "\x27")) ++ "]"
  | .jnull => "None"

/-- Whitespace recognised by Python `str.strip()` (ASCII subset: space, tab,
newline, carriage return, vertical tab, form feed). -/
def pyIsSpace (c : Char) : Bool :=
  c == ' ' || c == '\t' || c == '\n' || c == '\r' || c == Char.ofNat 11 || c == Char.ofNat 12

/-- Python `str.strip()`: removes leading and trailing whitespace. -/
def pyStrip (s : String) : String :=
  String.mk (((s.data.dropWhile pyIsSpace).reverse.dropWhile pyIsSpace).reverse)

/-- `dict.get(k)` on a decoded JSON object: the value of the first binding
of field `k`, if any. -/
def docGet (d : JDoc) (k : String) : Option JVal :=
  (d.find? (fun kv => kv.1 == k)).map (fun kv => kv.2)

/-- Whether field `k` is present in the object `d`. -/
def keyMem (k : String) (d : JDoc) : Bool :=
  d.any (fun kv => kv.1 == k)

/-- The mood map of `get_mood_value` in src/app.py (lines 60-69), as a
lookup table. -/
def mood_map : List (String × Int) :=
  [("😊", 5), ("😀", 4), ("😐", 3), ("😔", 2), ("😢", 1), ("😡", 1), ("😴", 2), ("🤪", 4)]

/-- `get_mood_value` (src/app.py lines 59-70): `mood_map.get(mood_emoji, 3)`,
defaulting to neutral 3 for unknown tokens. -/
def get_mood_value (mood_emoji : String) : Int :=
  ((mood_map.find? (fun kv => kv.1 == mood_emoji)).map (fun kv => kv.2)).getD 3

/-- The result of one HTTP request as seen by the client: either a JSON
response produced by the handler (`resp status body`), or an exception that
escaped the handler (outside any try/except), handled by the framework
(`uncaught`). -/
inductive HandlerOutcome where
  | resp : Nat → JDoc → HandlerOutcome
  | uncaught : HandlerOutcome
  deriving DecidableEq, Repr

/-- `get_user_settings` (src/app.py lines 98-110).  `stored` is the settings
document of the addressed user, `none` when it does not exist; `getErr`
injects a failure of the `settings_ref.get()` round-trip. -/
def get_user_settings (dbOk : Bool) (getErr : Option String) (stored : Option JDoc) :
    HandlerOutcome :=
  if !dbOk then .resp 500 [("error", .jstr "Firebase not initialized.")]
  else
    match getErr with
    | some e => .resp 500 [("error", .jstr e)]
    | none =>
      match stored with
      | some d => .resp 200 d
      | none => .resp 200 [("hasAgreedToTerms", .jbool false), ("wellWishers", .jstrList [])]

/-- Firestore `set(data, merge=True)` on an existing document: every field
of `body` overwrites the corresponding field of `old`; fields of `old` not
mentioned in `body` are retained.  This models the document-database
collaborator's merge-set operation (spec section 4.4). -/
def mergeSet (old body : JDoc) : JDoc :=
  body ++ old.filter (fun kv => !keyMem kv.1 body)

/-- `update_user_settings` (src/app.py lines 112-124).  `data` is the decoded
JSON request body (`none` when the body is JSON null); `setErr` injects a
failure of the `settings_ref.set` round-trip.  Returns the outcome and the
new stored settings document. -/
def update_user_settings (dbOk : Bool) (data : Option JDoc) (setErr : Option String)
    (stored : Option JDoc) : HandlerOutcome × Option JDoc :=
  if !dbOk then (.resp 500 [("error", .jstr "Firebase not initialized.")], stored)
  else
    match data with
    | none => (.resp 400 [("error", .jstr "No data provided.")], stored)
    | some [] => (.resp 400 [("error", .jstr "No data provided.")], stored)
    | some body =>
      match setErr with
      | some e => (.resp 500 [("error", .jstr e)], stored)
      | none =>
        (.resp 200 [("message", .jstr "Settings updated successfully")],
         some (mergeSet (stored.getD []) body))

/-- A stored mood document: the submitted mood value, the server-assigned
timestamp (written as `some now` on creation, so never null), and the userId
from the request path. -/
structure MoodDoc where
  mood : JVal
  timestamp : Option Nat
  userId : String
  deriving DecidableEq, Repr

/-- Store state relevant to the mood endpoints: the addressed user's private
`moodLogs` collection and the tenant-wide `publicMoods` collection, both as
(document id, document) lists, a counter modelling the store's server-assigned
document ids, and the server clock used for `SERVER_TIMESTAMP`. -/
structure MoodState where
  moodLogs : List (String × MoodDoc)
  publicMoods : List (String × MoodDoc)
  nextId : Nat
  now : Nat
  deriving DecidableEq, Repr

/-- Failure injections for the three collaborator round-trips of
`add_mood_log`, in program order: the private `add`, the public `add`, and
the settings `get`. -/
structure MoodEnv where
  privateAddErr : Option String
  publicAddErr : Option String
  settingsGetErr : Option String
  deriving DecidableEq, Repr

/-- `add_mood_log` (src/app.py lines 127-167).  Validation happens outside
the try block (`data.get` on a null body raises, uncaught); the two `add`
calls and the settings `get` happen inside it, sequentially, and any raised
exception is converted to a 500 response with no rollback of earlier writes.
The prolonged-depression check (lines 156-161) only prints, so it has no
modelled effect beyond the settings `get` round-trip itself. -/
def add_mood_log (dbOk : Bool) (user_id : String) (data : Option JDoc) (env : MoodEnv)
    (st : MoodState) : HandlerOutcome × MoodState :=
  if !dbOk then (.resp 500 [("error", .jstr "Firebase not initialized.")], st)
  else
    match data with
    | none => (.uncaught, st)
    | some body =>
      match docGet body "mood" with
      | none => (.resp 400 [("error", .jstr "Mood is required")], st)
      | some v =>
        if !pyTruthy v then (.resp 400 [("error", .jstr "Mood is required")], st)
        else
          match env.privateAddErr with
          | some e => (.resp 500 [("error", .jstr e)], st)
          | none =>
            let st1 : MoodState :=
              { st with
                moodLogs := st.moodLogs ++ [(toString st.nextId, ⟨v, some st.now, user_id⟩)],
                nextId := st.nextId + 1 }
            match env.publicAddErr with
            | some e => (.resp 500 [("error", .jstr e)], st1)
            | none =>
              let st2 : MoodState :=
                { st1 with
                  publicMoods :=
                    st1.publicMoods ++ [(toString st1.nextId, ⟨v, some st.now, user_id⟩)],
                  nextId := st1.nextId + 1 }
              match env.settingsGetErr with
              | some e => (.resp 500 [("error", .jstr e)], st2)
              | none => (.resp 201 [("message", .jstr "Mood logged successfully")], st2)

/-- `delete_mood_log` (src/app.py lines 169-178).  Firestore delete is
delete-if-exists: no existence check, 200 either way. -/
def delete_mood_log (dbOk : Bool) (mood_id : String) (delErr : Option String)
    (st : MoodState) : HandlerOutcome × MoodState :=
  if !dbOk then (.resp 500 [("error", .jstr "Firebase not initialized.")], st)
  else
    match delErr with
    | some e => (.resp 500 [("error", .jstr e)], st)
    | none =>
      (.resp 200 [("message", .jstr "Mood log deleted successfully")],
       { st with moodLogs := st.moodLogs.filter (fun kv => !(kv.1 == mood_id)) })

/-- A stored journal document: the trimmed entry text, the server-assigned
creation timestamp, the `updatedAt` timestamp (absent until the first edit),
and the userId from the request path. -/
structure JournalDoc where
  entry : String
  timestamp : Option Nat
  updatedAt : Option Nat
  userId : String
  deriving DecidableEq, Repr

/-- Store state relevant to the journal endpoints: the addressed user's
`journalEntries` collection as an (id, document) list, the server-assigned-id
counter, and the server clock. -/
structure JournalState where
  entries : List (String × JournalDoc)
  nextId : Nat
  now : Nat
  deriving DecidableEq, Repr

/-- `add_journal_entry` (src/app.py lines 182-200).  The guard
`not entry or len(entry.strip()) < 10 or len(entry.strip()) > 2000` runs
outside the try block; a truthy non-string entry makes `entry.strip()`
raise (uncaught). -/
def add_journal_entry (dbOk : Bool) (user_id : String) (data : Option JDoc)
    (addErr : Option String) (st : JournalState) : HandlerOutcome × JournalState :=
  if !dbOk then (.resp 500 [("error", .jstr "Firebase not initialized.")], st)
  else
    match data with
    | none => (.uncaught, st)
    | some body =>
      match docGet body "entry" with
      | none =>
        (.resp 400 [("error", .jstr "Journal entry must be between 10 and 2000 characters.")], st)
      | some v =>
        if !pyTruthy v then
          (.resp 400 [("error", .jstr "Journal entry must be between 10 and 2000 characters.")], st)
        else
          match v with
          | .jstr s =>
            if (pyStrip s).length < 10 || (pyStrip s).length > 2000 then
              (.resp 400
                [("error", .jstr "Journal entry must be between 10 and 2000 characters.")], st)
            else
              match addErr with
              | some e => (.resp 500 [("error", .jstr e)], st)
              | none =>
                (.resp 201 [("message", .jstr "Journal entry saved successfully")],
                 { st with
                   entries :=
                     st.entries ++ [(toString st.nextId, ⟨pyStrip s, some st.now, none, user_id⟩)],
                   nextId := st.nextId + 1 })
          | _ => (.uncaught, st)

/-- Looks up a journal document by id (the Firestore document reference). -/
def lookupEntry (es : List (String × JournalDoc)) (jid : String) : Option JournalDoc :=
  (es.find? (fun kv => kv.1 == jid)).map (fun kv => kv.2)

/-- Replaces the document stored under `jid`, leaving all other ids
untouched. -/
def setEntry (es : List (String × JournalDoc)) (jid : String) (d : JournalDoc) :
    List (String × JournalDoc) :=
  es.map (fun kv => if kv.1 == jid then (kv.1, d) else kv)

/-- `update_journal_entry` (src/app.py lines 202-219).  Same length guard as
on create, outside the try block; inside it, Firestore `update` overwrites
exactly the given fields (`entry`, `updatedAt`) of the existing document and
raises NotFound when the document does not exist, which the except clause
turns into a 500. -/
def update_journal_entry (dbOk : Bool) (user_id : String) (journal_id : String)
    (data : Option JDoc) (updErr : Option String) (st : JournalState) :
    HandlerOutcome × JournalState :=
  if !dbOk then (.resp 500 [("error", .jstr "Firebase not initialized.")], st)
  else
    match data with
    | none => (.uncaught, st)
    | some body =>
      match docGet body "entry" with
      | none =>
        (.resp 400 [("error", .jstr "Journal entry must be between 10 and 2000 characters.")], st)
      | some v =>
        if !pyTruthy v then
          (.resp 400 [("error", .jstr "Journal entry must be between 10 and 2000 characters.")], st)
        else
          match v with
          | .jstr s =>
            if (pyStrip s).length < 10 || (pyStrip s).length > 2000 then
              (.resp 400
                [("error", .jstr "Journal entry must be between 10 and 2000 characters.")], st)
            else
              match updErr with
              | some e => (.resp 500 [("error", .jstr e)], st)
              | none =>
                match lookupEntry st.entries journal_id with
                | none => (.resp 500 [("error", .jstr "No document to update")], st)
                | some d =>
                  (.resp 200 [("message", .jstr "Journal entry updated successfully")],
                   { st with
                     entries :=
                       setEntry st.entries journal_id
                         { d with entry := pyStrip s, updatedAt := some st.now } })
          | _ => (.uncaught, st)

/-- `delete_journal_entry` (src/app.py lines 221-230): delete-if-exists,
200 either way. -/
def delete_journal_entry (dbOk : Bool) (journal_id : String) (delErr : Option String)
    (st : JournalState) : HandlerOutcome × JournalState :=
  if !dbOk then (.resp 500 [("error", .jstr "Firebase not initialized.")], st)
  else
    match delErr with
    | some e => (.resp 500 [("error", .jstr e)], st)
    | none =>
      (.resp 200 [("message", .jstr "Journal entry deleted successfully")],
       { st with entries := st.entries.filter (fun kv => !(kv.1 == journal_id)) })

/-- The prompt template of `summarize_journal` (src/app.py line 242). -/
def summarize_prompt (t : String) : String :=
  "Summarize the following journal entry concisely: \"" ++ t ++ "\""

/-- The prompt template of `get_ai_coping_suggestion` (src/app.py line 259). -/
def coping_prompt (m : String) : String :=
  "Given that someone is feeling " ++ m ++
    ", provide a short, positive coping suggestion or a thoughtful insight (max 50 words)."

/-- The prompt of `chat_with_ai` (src/app.py line 278): the user message is
passed to `generate_content` as-is, with no surrounding template. -/
def chat_prompt (m : String) : String := m

/-- `summarize_journal` (src/app.py lines 233-248).  `gen` is the generation
collaborator's prompt-to-text behaviour; `genErr` injects a failure of the
`generate_content` round-trip. -/
def summarize_journal (gemOk : Bool) (gen : String → String) (genErr : Option String)
    (data : Option JDoc) : HandlerOutcome :=
  if !gemOk then .resp 500 [("error", .jstr "Gemini API not configured.")]
  else
    match data with
    | none => .uncaught
    | some body =>
      match docGet body "text" with
      | none => .resp 400 [("error", .jstr "Journal text is required for summarization.")]
      | some v =>
        if !pyTruthy v then
          .resp 400 [("error", .jstr "Journal text is required for summarization.")]
        else
          match genErr with
          | some e => .resp 500 [("error", .jstr e)]
          | none => .resp 200 [("summary", .jstr (gen (summarize_prompt (pyStr v))))]

/-- `get_ai_coping_suggestion` (src/app.py lines 250-265). -/
def get_ai_coping_suggestion (gemOk : Bool) (gen : String → String) (genErr : Option String)
    (data : Option JDoc) : HandlerOutcome :=
  if !gemOk then .resp 500 [("error", .jstr "Gemini API not configured.")]
  else
    match data with
    | none => .uncaught
    | some body =>
      match docGet body "mood" with
      | none => .resp 400 [("error", .jstr "Mood is required for coping suggestion.")]
      | some v =>
        if !pyTruthy v then
          .resp 400 [("error", .jstr "Mood is required for coping suggestion.")]
        else
          match genErr with
          | some e => .resp 500 [("error", .jstr e)]
          | none => .resp 200 [("suggestion", .jstr (gen (coping_prompt (pyStr v))))]

/-- `chat_with_ai` (src/app.py lines 267-283): the message is submitted to
the collaborator verbatim (no template). -/
def chat_with_ai (gemOk : Bool) (gen : String → String) (genErr : Option String)
    (data : Option JDoc) : HandlerOutcome :=
  if !gemOk then .resp 500 [("error", .jstr "Gemini API not configured.")]
  else
    match data with
    | none => .uncaught
    | some body =>
      match docGet body "message" with
      | none => .resp 400 [("error", .jstr "Message is required for chat.")]
      | some v =>
        if !pyTruthy v then
          .resp 400 [("error", .jstr "Message is required for chat.")]
        else
          match genErr with
          | some e => .resp 500 [("error", .jstr e)]
          | none => .resp 200 [("response", .jstr (gen (chat_prompt (pyStr v))))]

/-- A string of length zero is the empty string. -/
theorem string_length_zero {s : String} (h : s.length = 0) : s = "" := by
  cases s with
  | mk data =>
    cases data with
    | nil => rfl
    | cons c cs => simp [String.length] at h

/-- Claim C2: the mood-to-score lookup is pure and total; every emoji token
of the fixed table maps to its documented integer in 1-5, and every other
input maps to 3. -/
theorem get_mood_value_spec :
    get_mood_value "😊" = 5 ∧ get_mood_value "😀" = 4 ∧ get_mood_value "😐" = 3 ∧
    get_mood_value "😔" = 2 ∧ get_mood_value "😢" = 1 ∧ get_mood_value "😡" = 1 ∧
    get_mood_value "😴" = 2 ∧ get_mood_value "🤪" = 4 ∧
    (∀ kv ∈ mood_map, 1 ≤ kv.2 ∧ kv.2 ≤ 5) ∧
    (∀ s : String, s ∉ mood_map.map Prod.fst → get_mood_value s = 3) := by
  refine ⟨by decide, by decide, by decide, by decide, by decide, by decide, by decide, by decide,
    by decide, ?_⟩
  intro s hs
  have h : mood_map.find? (fun kv => kv.1 == s) = none := by
    rw [List.find?_eq_none]
    intro kv hkv hbeq
    exact hs (List.mem_map.mpr ⟨kv, hkv, eq_of_beq hbeq⟩)
  simp [get_mood_value, h]

/-- Witness for claim C2 at the concrete unknown token "party": the default
score 3 comes out. -/
theorem get_mood_value_spec_witness : get_mood_value "party" = 3 :=
  get_mood_value_spec.2.2.2.2.2.2.2.2.2 "party" (by decide)

/-- Claim C5: reading the settings of a user with no stored settings
document yields HTTP 200 with exactly the default document
`{hasAgreedToTerms: false, wellWishers: []}`. -/
theorem get_settings_default :
    get_user_settings true none none
      = HandlerOutcome.resp 200
          [("hasAgreedToTerms", JVal.jbool false), ("wellWishers", JVal.jstrList [])] := rfl

/-- Claim C4: with the required collaborator unavailable, every handler
returns HTTP 500 with an explanatory error body, independently of the
request body (including a missing one) and of the store state; in
particular all three AI endpoints return 500 whenever the generation
client is unavailable. -/
theorem collaborator_unavailable_500 (data : Option JDoc) (uid jid mid : String)
    (getErr setErr addErr updErr delErr genErr : Option String) (env : MoodEnv)
    (mst : MoodState) (jst : JournalState) (sst : Option JDoc) (gen : String → String) :
    get_user_settings false getErr sst
        = HandlerOutcome.resp 500 [("error", JVal.jstr "Firebase not initialized.")]
  ∧ update_user_settings false data setErr sst
        = (HandlerOutcome.resp 500 [("error", JVal.jstr "Firebase not initialized.")], sst)
  ∧ add_mood_log false uid data env mst
        = (HandlerOutcome.resp 500 [("error", JVal.jstr "Firebase not initialized.")], mst)
  ∧ delete_mood_log false mid delErr mst
        = (HandlerOutcome.resp 500 [("error", JVal.jstr "Firebase not initialized.")], mst)
  ∧ add_journal_entry false uid data addErr jst
        = (HandlerOutcome.resp 500 [("error", JVal.jstr "Firebase not initialized.")], jst)
  ∧ update_journal_entry false uid jid data updErr jst
        = (HandlerOutcome.resp 500 [("error", JVal.jstr "Firebase not initialized.")], jst)
  ∧ delete_journal_entry false jid delErr jst
        = (HandlerOutcome.resp 500 [("error", JVal.jstr "Firebase not initialized.")], jst)
  ∧ summarize_journal false gen genErr data
        = HandlerOutcome.resp 500 [("error", JVal.jstr "Gemini API not configured.")]
  ∧ get_ai_coping_suggestion false gen genErr data
        = HandlerOutcome.resp 500 [("error", JVal.jstr "Gemini API not configured.")]
  ∧ chat_with_ai false gen genErr data
        = HandlerOutcome.resp 500 [("error", JVal.jstr "Gemini API not configured.")] :=
  ⟨rfl, rfl, rfl, rfl, rfl, rfl, rfl, rfl, rfl, rfl⟩

/-- Claim C3 counterexample: the mood-logging handler does not answer a null
decoded body with HTTP 400 "No data provided."; instead `data.get("mood")`
on a null body raises outside the try block and the exception escapes to the
framework. -/
theorem no_data_provided_counterexample :
    add_mood_log true "u1" none ⟨none, none, none⟩ ⟨[], [], 0, 0⟩
        = (HandlerOutcome.uncaught, ⟨[], [], 0, 0⟩)
  ∧ HandlerOutcome.uncaught
      ≠ HandlerOutcome.resp 400 [("error", JVal.jstr "No data provided.")] :=
  ⟨rfl, by decide⟩

/-- Claim C3 amended: only the user-settings POST handler checks for a
missing/empty decoded body and returns HTTP 400 "No data provided."; the
mood, journal and AI handlers have no such check — on a null decoded body
they dereference it and the resulting exception escapes the handler
uncaught. -/
theorem no_data_provided_amended (sst : Option JDoc) (uid jid : String) (env : MoodEnv)
    (mst : MoodState) (jst : JournalState) (gen : String → String)
    (genErr addErr updErr : Option String) :
    (update_user_settings true none none sst).1
        = HandlerOutcome.resp 400 [("error", JVal.jstr "No data provided.")]
  ∧ (update_user_settings true (some []) none sst).1
        = HandlerOutcome.resp 400 [("error", JVal.jstr "No data provided.")]
  ∧ (add_mood_log true uid none env mst).1 = HandlerOutcome.uncaught
  ∧ (add_journal_entry true uid none addErr jst).1 = HandlerOutcome.uncaught
  ∧ (update_journal_entry true uid jid none updErr jst).1 = HandlerOutcome.uncaught
  ∧ summarize_journal true gen genErr none = HandlerOutcome.uncaught
  ∧ get_ai_coping_suggestion true gen genErr none = HandlerOutcome.uncaught
  ∧ chat_with_ai true gen genErr none = HandlerOutcome.uncaught :=
  ⟨rfl, rfl, rfl, rfl, rfl, rfl, rfl, rfl⟩

/-- Evaluation of the journal-create handler on a string entry with a
healthy store: the length guard alone decides between the 201 write and
the 400 rejection. -/
theorem add_journal_entry_cases (uid s : String) (st : JournalState) :
    add_journal_entry true uid (some [("entry", JVal.jstr s)]) none st =
      if 10 ≤ (pyStrip s).length ∧ (pyStrip s).length ≤ 2000 then
        (HandlerOutcome.resp 201 [("message", JVal.jstr "Journal entry saved successfully")],
         { st with
           entries := st.entries ++ [(toString st.nextId, ⟨pyStrip s, some st.now, none, uid⟩)],
           nextId := st.nextId + 1 })
      else
        (HandlerOutcome.resp 400
          [("error", JVal.jstr "Journal entry must be between 10 and 2000 characters.")],
         st) := by
  by_cases hs : s = ""
  · subst hs
    have h0 : pyStrip "" = "" := rfl
    simp [add_journal_entry, docGet, pyTruthy, h0]
  · by_cases hlen : 10 ≤ (pyStrip s).length ∧ (pyStrip s).length ≤ 2000
    · have h1 : ¬ (pyStrip s).length < 10 := Nat.not_lt.mpr hlen.1
      have h2 : ¬ (pyStrip s).length > 2000 := Nat.not_lt.mpr hlen.2
      simp [add_journal_entry, docGet, pyTruthy, hs, hlen, h1, h2]
    · rcases Nat.lt_or_ge (pyStrip s).length 10 with h | h
      · simp [add_journal_entry, docGet, pyTruthy, hs, hlen, h]
      · have h2 : (pyStrip s).length > 2000 := by omega
        simp [add_journal_entry, docGet, pyTruthy, hs, hlen, h2]

/-- Evaluation of the journal-update handler on a string entry against a
store holding exactly the addressed document: the length guard alone
decides between the 200 field update and the 400 rejection. -/
theorem update_journal_entry_cases (uid jid s : String) (d : JournalDoc) (nid now : Nat) :
    update_journal_entry true uid jid (some [("entry", JVal.jstr s)]) none ⟨[(jid, d)], nid, now⟩ =
      if 10 ≤ (pyStrip s).length ∧ (pyStrip s).length ≤ 2000 then
        (HandlerOutcome.resp 200 [("message", JVal.jstr "Journal entry updated successfully")],
         ⟨[(jid, { d with entry := pyStrip s, updatedAt := some now })], nid, now⟩)
      else
        (HandlerOutcome.resp 400
          [("error", JVal.jstr "Journal entry must be between 10 and 2000 characters.")],
         ⟨[(jid, d)], nid, now⟩) := by
  by_cases hs : s = ""
  · subst hs
    have h0 : pyStrip "" = "" := rfl
    simp [update_journal_entry, docGet, pyTruthy, h0]
  · by_cases hlen : 10 ≤ (pyStrip s).length ∧ (pyStrip s).length ≤ 2000
    · have h1 : ¬ (pyStrip s).length < 10 := Nat.not_lt.mpr hlen.1
      have h2 : ¬ (pyStrip s).length > 2000 := Nat.not_lt.mpr hlen.2
      simp [update_journal_entry, docGet, pyTruthy, lookupEntry, setEntry, hs, hlen, h1, h2]
    · rcases Nat.lt_or_ge (pyStrip s).length 10 with h | h
      · simp [update_journal_entry, docGet, pyTruthy, hs, hlen, h]
      · have h2 : (pyStrip s).length > 2000 := by omega
        simp [update_journal_entry, docGet, pyTruthy, hs, hlen, h2]

/-- Claim C1: on both create and update, a string journal entry is accepted
(proceeds to storage, 201 resp. 200) exactly when its trimmed length is
between 10 and 2000 characters, and otherwise the handler answers HTTP 400
with the length-violation message; the bound check is the same on both
paths. -/
theorem journal_length_check (s uid jid : String) (st : JournalState) (d : JournalDoc)
    (nid now : Nat) :
    ((add_journal_entry true uid (some [("entry", JVal.jstr s)]) none st).1
        = HandlerOutcome.resp 201 [("message", JVal.jstr "Journal entry saved successfully")]
      ↔ 10 ≤ (pyStrip s).length ∧ (pyStrip s).length ≤ 2000)
  ∧ ((update_journal_entry true uid jid (some [("entry", JVal.jstr s)]) none
          ⟨[(jid, d)], nid, now⟩).1
        = HandlerOutcome.resp 200 [("message", JVal.jstr "Journal entry updated successfully")]
      ↔ 10 ≤ (pyStrip s).length ∧ (pyStrip s).length ≤ 2000)
  ∧ ((add_journal_entry true uid (some [("entry", JVal.jstr s)]) none st).1
        = HandlerOutcome.resp 400
            [("error", JVal.jstr "Journal entry must be between 10 and 2000 characters.")]
      ↔ ¬(10 ≤ (pyStrip s).length ∧ (pyStrip s).length ≤ 2000))
  ∧ ((update_journal_entry true uid jid (some [("entry", JVal.jstr s)]) none
          ⟨[(jid, d)], nid, now⟩).1
        = HandlerOutcome.resp 400
            [("error", JVal.jstr "Journal entry must be between 10 and 2000 characters.")]
      ↔ ¬(10 ≤ (pyStrip s).length ∧ (pyStrip s).length ≤ 2000)) := by
  have ha := add_journal_entry_cases uid s st
  have hu := update_journal_entry_cases uid jid s d nid now
  by_cases hlen : 10 ≤ (pyStrip s).length ∧ (pyStrip s).length ≤ 2000
  · rw [if_pos hlen] at ha hu
    rw [ha, hu]
    simp [hlen]
  · rw [if_neg hlen] at ha hu
    rw [ha, hu]
    simp [hlen]

/-- Filtering out the fields overwritten by `body` does not change lookups
of a field that `body` does not mention. -/
theorem find_filter_no_key (old body : JDoc) (k : String) (h : keyMem k body = false) :
    (old.filter (fun kv => !keyMem kv.1 body)).find? (fun kv => kv.1 == k)
      = old.find? (fun kv => kv.1 == k) := by
  induction old with
  | nil => rfl
  | cons a tl ih =>
    cases hf : keyMem a.1 body with
    | true =>
      have hak : (a.1 == k) = false := by
        rw [beq_eq_false_iff_ne]
        intro hak
        rw [hak] at hf
        simp [h] at hf
      simp [List.filter_cons, hf, List.find?, hak, ih]
    | false =>
      cases hbk : (a.1 == k) with
      | true => simp [List.filter_cons, hf, List.find?, hbk]
      | false => simp [List.filter_cons, hf, List.find?, hbk, ih]

/-- Reading a field of a merge-set document: fields of `body` win, every
other field comes from `old`. -/
theorem docGet_mergeSet (old body : JDoc) (k : String) :
    docGet (mergeSet old body) k
      = if keyMem k body then docGet body k else docGet old k := by
  unfold docGet mergeSet
  rw [List.find?_append]
  cases hm : keyMem k body with
  | true =>
    have hsome : (body.find? (fun kv => kv.1 == k)).isSome := by
      rw [List.find?_isSome]
      rw [keyMem] at hm
      obtain ⟨x, hx, hp⟩ := List.any_eq_true.mp hm
      exact ⟨x, hx, hp⟩
    obtain ⟨y, hy⟩ := Option.isSome_iff_exists.mp hsome
    simp [hy]
  | false =>
    have hnone : body.find? (fun kv => kv.1 == k) = none := by
      rw [List.find?_eq_none]
      intro x hx hp
      rw [keyMem] at hm
      have hany : body.any (fun kv => kv.1 == k) = true := List.any_eq_true.mpr ⟨x, hx, hp⟩
      rw [hm] at hany
      exact Bool.false_ne_true hany
    rw [hnone]
    simp only [Option.or, Bool.false_eq_true, if_false]
    rw [find_filter_no_key old body k hm]

/-- Claim C6: posting a non-empty settings body merge-updates the stored
document: the handler answers 200, the new stored document is the merge of
the old one with the body, every field mentioned in the body reads back
from the body, every other field reads back from the old document, and a
subsequent GET returns the merged document. -/
theorem settings_merge_update (old : JDoc) (kv0 : String × JVal) (rest : JDoc) (k : String) :
    (update_user_settings true (some (kv0 :: rest)) none (some old)).1
        = HandlerOutcome.resp 200 [("message", JVal.jstr "Settings updated successfully")]
  ∧ (update_user_settings true (some (kv0 :: rest)) none (some old)).2
        = some (mergeSet old (kv0 :: rest))
  ∧ (if keyMem k (kv0 :: rest) then
       docGet (mergeSet old (kv0 :: rest)) k = docGet (kv0 :: rest) k
     else docGet (mergeSet old (kv0 :: rest)) k = docGet old k)
  ∧ get_user_settings true none
        ((update_user_settings true (some (kv0 :: rest)) none (some old)).2)
        = HandlerOutcome.resp 200 (mergeSet old (kv0 :: rest)) := by
  refine ⟨rfl, rfl, ?_, rfl⟩
  cases hm : keyMem k (kv0 :: rest) with
  | true => simp [docGet_mergeSet, hm]
  | false => simp [docGet_mergeSet, hm]

/-- Claim C7: a successful mood POST with a truthy mood answers 201 and
appends exactly one document to the private moodLogs collection and exactly
one to the tenant-wide publicMoods collection, both carrying the same mood
value, the path userId and a non-null server timestamp; the two writes are
sequential and non-transactional: when the second (public) write fails, the
handler answers 500 but the private document persists with no rollback. -/
theorem add_mood_dual_write (uid : String) (v : JVal) (st : MoodState) (e : String)
    (hv : pyTruthy v = true) :
    add_mood_log true uid (some [("mood", v)]) ⟨none, none, none⟩ st
        = (HandlerOutcome.resp 201 [("message", JVal.jstr "Mood logged successfully")],
           { st with
             moodLogs := st.moodLogs ++ [(toString st.nextId, ⟨v, some st.now, uid⟩)],
             publicMoods := st.publicMoods ++ [(toString (st.nextId + 1), ⟨v, some st.now, uid⟩)],
             nextId := st.nextId + 2 })
  ∧ (⟨v, some st.now, uid⟩ : MoodDoc).timestamp ≠ none
  ∧ add_mood_log true uid (some [("mood", v)]) ⟨none, some e, none⟩ st
        = (HandlerOutcome.resp 500 [("error", JVal.jstr e)],
           { st with
             moodLogs := st.moodLogs ++ [(toString st.nextId, ⟨v, some st.now, uid⟩)],
             nextId := st.nextId + 1 }) := by
  refine ⟨?_, by simp, ?_⟩
  · simp [add_mood_log, docGet, List.find?, hv]
  · simp [add_mood_log, docGet, List.find?, hv]

/-- Witness for claim C7 at the concrete input of the spec: user "U1"
posts mood 😊 into an empty store. -/
theorem add_mood_dual_write_witness :
    add_mood_log true "U1" (some [("mood", JVal.jstr "😊")]) ⟨none, none, none⟩ ⟨[], [], 0, 0⟩
      = (HandlerOutcome.resp 201 [("message", JVal.jstr "Mood logged successfully")],
         ⟨[("0", ⟨JVal.jstr "😊", some 0, "U1"⟩)], [("1", ⟨JVal.jstr "😊", some 0, "U1"⟩)],
          2, 0⟩) := by
  have h := (add_mood_dual_write "U1" (JVal.jstr "😊") ⟨[], [], 0, 0⟩ "x" (by decide)).1
  exact h

/-- Claim C10: a 500 answer from the mood POST does not imply an unchanged
store: when the settings read performed after the two writes (for the
simulated prolonged-depression check, still inside the try block) fails,
the handler answers 500 while both the private and the public mood document
have already been created, with no rollback. -/
theorem mood_500_after_both_writes (uid : String) (v : JVal) (st : MoodState) (e : String)
    (hv : pyTruthy v = true) :
    add_mood_log true uid (some [("mood", v)]) ⟨none, none, some e⟩ st
      = (HandlerOutcome.resp 500 [("error", JVal.jstr e)],
         { st with
           moodLogs := st.moodLogs ++ [(toString st.nextId, ⟨v, some st.now, uid⟩)],
           publicMoods := st.publicMoods ++ [(toString (st.nextId + 1), ⟨v, some st.now, uid⟩)],
           nextId := st.nextId + 2 }) := by
  simp [add_mood_log, docGet, List.find?, hv]

/-- Witness for claim C10: user "U1" posts mood 😊 into an empty store and
the settings read raises; the answer is 500 yet both documents exist. -/
theorem mood_500_after_both_writes_witness :
    add_mood_log true "U1" (some [("mood", JVal.jstr "😊")]) ⟨none, none, some "read failed"⟩
        ⟨[], [], 0, 0⟩
      = (HandlerOutcome.resp 500 [("error", JVal.jstr "read failed")],
         ⟨[("0", ⟨JVal.jstr "😊", some 0, "U1"⟩)], [("1", ⟨JVal.jstr "😊", some 0, "U1"⟩)],
          2, 0⟩) := by
  have h := mood_500_after_both_writes "U1" (JVal.jstr "😊") ⟨[], [], 0, 0⟩ "read failed"
    (by decide)
  exact h

/-- Claim C9: a successful journal update overwrites exactly the entry
field (with the trimmed new string) and stamps updatedAt with the server
clock; the stored document's original timestamp and userId are unchanged,
and other document ids are untouched (the store holds the addressed
document). -/
theorem update_journal_frame (uid jid s : String) (d : JournalDoc) (nid now : Nat)
    (h1 : 10 ≤ (pyStrip s).length) (h2 : (pyStrip s).length ≤ 2000) :
    update_journal_entry true uid jid (some [("entry", JVal.jstr s)]) none ⟨[(jid, d)], nid, now⟩
        = (HandlerOutcome.resp 200 [("message", JVal.jstr "Journal entry updated successfully")],
           ⟨[(jid, { d with entry := pyStrip s, updatedAt := some now })], nid, now⟩)
  ∧ ({ d with entry := pyStrip s, updatedAt := some now }).timestamp = d.timestamp
  ∧ ({ d with entry := pyStrip s, updatedAt := some now }).userId = d.userId := by
  refine ⟨?_, rfl, rfl⟩
  rw [update_journal_entry_cases, if_pos ⟨h1, h2⟩]

/-- Witness for claim C9 at a concrete valid update: entry "1234567890"
replaces the stored text, updatedAt is stamped, timestamp and userId
survive. -/
theorem update_journal_frame_witness :
    update_journal_entry true "U1" "j1" (some [("entry", JVal.jstr "1234567890")]) none
        ⟨[("j1", ⟨"old entry text", some 5, none, "U1"⟩)], 7, 9⟩
      = (HandlerOutcome.resp 200 [("message", JVal.jstr "Journal entry updated successfully")],
         ⟨[("j1", ⟨"1234567890", some 5, some 9, "U1"⟩)], 7, 9⟩) := by
  have h := (update_journal_frame "U1" "j1" "1234567890" ⟨"old entry text", some 5, none, "U1"⟩
    7 9 (by decide) (by decide)).1
  exact h

/-- Claim C8 counterexample: the chat endpoint submits the caller's message
itself as the prompt; the only pair of fixed strings it could be said to
wrap every message in is the empty pair, so it interpolates into no fixed
natural-language template. -/
theorem chat_template_counterexample :
    chat_prompt "hello" = "hello"
  ∧ (∀ pre post : String, (∀ m : String, chat_prompt m = pre ++ m ++ post) →
      pre = "" ∧ post = "") := by
  refine ⟨rfl, ?_⟩
  intro pre post h
  have h0 : ("" : String) = pre ++ "" ++ post := h ""
  have hlen := congrArg String.length h0
  simp only [String.length_append, String.length_empty] at hlen
  have hp : pre.length = 0 := by omega
  have hq : post.length = 0 := by omega
  exact ⟨string_length_zero hp, string_length_zero hq⟩

/-- Claim C8 amended: the summarize and coping endpoints interpolate the
caller-supplied field into their fixed natural-language templates and
answer 200 with the collaborator's output verbatim; the chat endpoint also
answers 200 with the collaborator's output verbatim, but submits the
caller's message as the prompt unchanged, with no surrounding template. -/
theorem ai_prompt_amended (gen : String → String) (t : String) (ht : t ≠ "") :
    summarize_journal true gen none (some [("text", JVal.jstr t)])
        = HandlerOutcome.resp 200
            [("summary", JVal.jstr (gen
              ("Summarize the following journal entry concisely: \"" ++ t ++ "\"")))]
  ∧ get_ai_coping_suggestion true gen none (some [("mood", JVal.jstr t)])
        = HandlerOutcome.resp 200
            [("suggestion", JVal.jstr (gen
              ("Given that someone is feeling " ++ t ++
               ", provide a short, positive coping suggestion or a thoughtful insight (max 50 words).")))]
  ∧ chat_with_ai true gen none (some [("message", JVal.jstr t)])
        = HandlerOutcome.resp 200 [("response", JVal.jstr (gen t))] := by
  refine ⟨?_, ?_, ?_⟩
  · simp [summarize_journal, docGet, List.find?, pyTruthy, ht, summarize_prompt, pyStr]
  · simp [get_ai_coping_suggestion, docGet, List.find?, pyTruthy, ht, coping_prompt, pyStr]
  · simp [chat_with_ai, docGet, List.find?, pyTruthy, ht, chat_prompt, pyStr]

/-- Witness for the amended claim C8 with the identity collaborator and the
message "hello": the chat prompt reaching the collaborator is exactly
"hello". -/
theorem ai_prompt_amended_witness :
    chat_with_ai true (fun s => s) none (some [("message", JVal.jstr "hello")])
      = HandlerOutcome.resp 200 [("response", JVal.jstr "hello")] :=
  (ai_prompt_amended (fun s => s) "hello" (by decide)).2.2
